import Mathlib

/-!
Verification of the merch-design-enhancer library.

The library is an orchestration layer: it normalizes an image input
(binary, base64/data-URI text, or file path) to a binary buffer, builds a
natural-language prompt from a product category and optional color, hands
both to one of four provider adapters, and sniffs the MIME type of the
returned bytes.  We embed the relevant functions shallowly: JavaScript
strings become Lean `String` (reasoned about through their `List Char`
data), Node `Buffer`s become `List Nat` of byte values, network I/O
becomes explicit oracle functions, and thrown `Error`s become `Except`
values carrying the error message or a structured error tag.
-/

namespace Merch

/-- Tail-recursive worker for `countSub`. -/
def countSubAux (p : List Char) : List Char → Nat → Nat
  | [], acc => acc
  | c :: rest, acc =>
    if p.isPrefixOf (c :: rest) then countSubAux p rest (acc + 1)
    else countSubAux p rest acc

/-- Number of (possibly overlapping) occurrences of `p` as a contiguous
sublist of `s`.  Used to count how often a color string appears in a
generated prompt. -/
def countSub (p s : List Char) : Nat := countSubAux p s 0

/-- Occurrence count of string `p` inside string `s`. -/
def countSubstr (p s : String) : Nat := countSub p.data s.data

/-- `p` occurs somewhere inside `s`. -/
def occursIn (p s : String) : Prop := 0 < countSubstr p s

instance (p s : String) : Decidable (occursIn p s) := by
  unfold occursIn; infer_instance

/-! ## Base64 (Node.js semantics)

`Buffer.from(str, 'base64')` in Node is forgiving: characters outside the
base64 alphabet (including `=` padding and any punctuation) are skipped,
and an incomplete trailing group is decoded as far as possible.  In
particular the decoder **never throws**.  We model it by filtering the
input down to alphabet characters and decoding 4-character groups to
3 bytes, with 3- and 2-character trailing groups giving 2 and 1 bytes. -/

/-- Value of a base64 alphabet character, `none` for any other character
(Node's decoder skips those). -/
def b64Val (c : Char) : Option Nat :=
  if 'A' ≤ c ∧ c ≤ 'Z' then some (c.toNat - 65)
  else if 'a' ≤ c ∧ c ≤ 'z' then some (c.toNat - 97 + 26)
  else if '0' ≤ c ∧ c ≤ '9' then some (c.toNat - 48 + 52)
  else if c = '+' then some 62
  else if c = '/' then some 63
  else none

/-- The base64 alphabet character for a 6-bit value. -/
def b64Char (v : Nat) : Char :=
  if v < 26 then Char.ofNat (65 + v)
  else if v < 52 then Char.ofNat (97 + (v - 26))
  else if v < 62 then Char.ofNat (48 + (v - 52))
  else if v = 62 then '+'
  else '/'

/-- Decode a list of 6-bit values to bytes: groups of four values give
three bytes; a trailing group of three or two values gives two bytes or
one byte; a lone value is dropped. -/
def decodeVals : List Nat → List Nat
  | c0 :: c1 :: c2 :: c3 :: rest =>
      (c0 * 4 + c1 / 16) :: ((c1 % 16) * 16 + c2 / 4) :: ((c2 % 4) * 64 + c3) ::
        decodeVals rest
  | [c0, c1, c2] => [c0 * 4 + c1 / 16, (c1 % 16) * 16 + c2 / 4]
  | [c0, c1] => [c0 * 4 + c1 / 16]
  | _ => []

/-- Node's lenient base64 decode: skip non-alphabet characters, then
decode the 6-bit values.  Total — this is why the `try/catch` around
`Buffer.from(image, 'base64')` in `normalizeImageInput` can never take
its `catch` branch. -/
def nodeB64Decode (s : String) : List Nat :=
  decodeVals (s.data.filterMap b64Val)

/-- Standard base64 **encoding** of a byte list, with `=` padding (the
spec side of the round-trip property; matches `buf.toString('base64')`). -/
def encodeChars : List Nat → List Char
  | b0 :: b1 :: b2 :: rest =>
      b64Char (b0 / 4) :: b64Char ((b0 % 4) * 16 + b1 / 16) ::
        b64Char ((b1 % 16) * 4 + b2 / 64) :: b64Char (b2 % 64) :: encodeChars rest
  | [b0, b1] =>
      [b64Char (b0 / 4), b64Char ((b0 % 4) * 16 + b1 / 16),
        b64Char ((b1 % 16) * 4), '=']
  | [b0] => [b64Char (b0 / 4), b64Char ((b0 % 4) * 16), '=', '=']
  | [] => []

/-- `buf.toString('base64')` as a Lean `String`. -/
def b64Encode (l : List Nat) : String := ⟨encodeChars l⟩

/-! ## Product taxonomy and prompt builder (`src/prompts/prompt-builder.ts`) -/

/-- The `ProductType` enum. -/
inductive ProductType where
  | HOODIE | FACECAP | SHIRT | MUG | STICKER_PAD
  | TANK_TOP | LONG_SLEEVE | SWEATSHIRT | JACKET | TOTE_BAG
deriving DecidableEq, Repr, Fintype

namespace PromptBuilder

/-- `PromptBuilder.getProductName`: the display-name lookup table. -/
def getProductName : ProductType → String
  | .HOODIE => "hoodie"
  | .FACECAP => "face cap or baseball cap"
  | .SHIRT => "t-shirt or shirt"
  | .MUG => "ceramic mug"
  | .STICKER_PAD => "sticker pad or notepad"
  | .TANK_TOP => "tank top"
  | .LONG_SLEEVE => "long sleeve shirt"
  | .SWEATSHIRT => "sweatshirt"
  | .JACKET => "jacket"
  | .TOTE_BAG => "tote bag"

/-- The `${colorDescription ? ', especially the specified color' : ''}`
tail of every template (JS string truthiness: empty string is falsy). -/
def colorReinforce (colorDescription : String) : String :=
  if colorDescription = "" then "" else ", especially the specified color"

/-- `PromptBuilder.buildClothingPrompt`. -/
def buildClothingPrompt (productType : ProductType)
    (colorDescription designPreservation : String) : String :=
  let productName := getProductName productType
  "Create a high-quality, professional product photography image of a " ++ productName ++ colorDescription ++ " hanging from an elegant golden or wooden hanger in a luxury boutique setting. \n\nRequirements:\n- The " ++ productName ++ " should be displayed hanging from a premium golden or wooden hanger with a slight, natural tilt (approximately 15-20 degrees) that showcases the product beautifully\n- The focus should be entirely on the " ++ productName ++ ", which should appear as if it's made from high-quality fabric\n- The background should suggest an upscale boutique environment - think soft, professional lighting, elegant textures, and a sophisticated atmosphere\n- The image should look like professional product photography that you would see in a high-end fashion catalog or boutique website\n- The lighting should be soft and flattering, highlighting the product's details, fabric texture, and fit\n- The " ++ productName ++ " should appear three-dimensional and realistic, as if it's an actual physical garment\n- The overall aesthetic should be clean, minimal, and luxurious" ++ designPreservation ++ "\n- The hanger should be visible but not distract from the product\n- The image should have a shallow depth of field, keeping the product in sharp focus while the background is slightly blurred\n- Show the fabric texture and quality - it should look premium and well-made\n- Color accuracy is important - maintain the exact colors of the product" ++ colorReinforce colorDescription ++ "\n\nStyle: Professional product photography, boutique aesthetic, luxury fashion catalog, high-end e-commerce, clean and minimal, sophisticated lighting, realistic fabric texture, premium quality."

/-- `PromptBuilder.buildCapPrompt`. -/
def buildCapPrompt (colorDescription designPreservation : String) : String :=
  "Create a high-quality, professional product photography image of a face cap or baseball cap" ++ colorDescription ++ " displayed on an elegant cap stand or mannequin head in a luxury boutique setting.\n\nRequirements:\n- The cap should be displayed on a premium cap stand, wooden display head, or elegant mannequin head that showcases the cap beautifully\n- Position the cap at a slight angle (approximately 15-20 degrees) to show both the front design and the overall shape\n- The focus should be entirely on the cap, which should appear as if it's made from high-quality materials\n- The background should suggest an upscale boutique or lifestyle store environment - think soft, professional lighting, elegant textures, and a sophisticated atmosphere\n- The image should look like professional product photography that you would see in a high-end sports or lifestyle brand catalog\n- The lighting should be soft and flattering, highlighting the cap's details, material texture, and structure\n- The cap should appear three-dimensional and realistic, as if it's an actual physical item\n- The overall aesthetic should be clean, minimal, and luxurious" ++ designPreservation ++ "\n- The display stand should be visible but not distract from the cap\n- The image should have a shallow depth of field, keeping the cap in sharp focus while the background is slightly blurred\n- Show the material quality - it should look premium and well-constructed\n- Color accuracy is important - maintain the exact colors of the cap" ++ colorReinforce colorDescription ++ "\n\nStyle: Professional product photography, boutique aesthetic, luxury sports/lifestyle catalog, high-end e-commerce, clean and minimal, sophisticated lighting, realistic material texture, premium quality."

/-- `PromptBuilder.buildMugPrompt`. -/
def buildMugPrompt (colorDescription designPreservation : String) : String :=
  "Create a high-quality, professional product photography image of a ceramic mug" ++ colorDescription ++ " displayed on an elegant surface in a luxury boutique or modern home setting.\n\nRequirements:\n- The mug should be displayed on a beautiful surface such as a marble countertop, wooden table, or elegant ceramic coaster in a sophisticated setting\n- Position the mug at a slight angle (approximately 20-30 degrees) to showcase both the front design and the overall shape of the mug\n- The focus should be entirely on the mug, which should appear as if it's made from high-quality ceramic\n- The background should suggest an upscale boutique, modern kitchen, or lifestyle store environment - think soft, professional lighting, elegant textures, and a sophisticated atmosphere\n- The image should look like professional product photography that you would see in a high-end home goods catalog or boutique website\n- The lighting should be soft and flattering, highlighting the mug's design, ceramic texture, and shape\n- The mug should appear three-dimensional and realistic, as if it's an actual physical item\n- The overall aesthetic should be clean, minimal, and luxurious" ++ designPreservation ++ "\n- The surface should complement the mug without distracting from it - consider adding subtle elements like natural light, soft shadows, or minimal props\n- The image should have a shallow depth of field, keeping the mug in sharp focus while the background is slightly blurred\n- Show the ceramic quality - it should look premium and well-crafted\n- Color accuracy is important - maintain the exact colors of the mug" ++ colorReinforce colorDescription ++ "\n\nStyle: Professional product photography, boutique aesthetic, luxury home goods catalog, high-end e-commerce, clean and minimal, sophisticated lighting, realistic ceramic texture, premium quality, lifestyle photography."

/-- `PromptBuilder.buildStickerPadPrompt`. -/
def buildStickerPadPrompt (colorDescription designPreservation : String) : String :=
  "Create a high-quality, professional product photography image of a sticker pad or notepad" ++ colorDescription ++ " displayed on an elegant desk or table surface in a luxury boutique or modern workspace setting.\n\nRequirements:\n- The sticker pad should be displayed on a beautiful surface such as a wooden desk, marble table, or elegant workspace setting\n- Position the pad at a slight angle (approximately 15-25 degrees) to showcase the cover design and give it a natural, inviting appearance\n- The focus should be entirely on the sticker pad, which should appear as if it's made from high-quality paper and materials\n- The background should suggest an upscale boutique, modern office, or lifestyle store environment - think soft, professional lighting, elegant textures, and a sophisticated atmosphere\n- The image should look like professional product photography that you would see in a high-end stationery or office supplies catalog\n- The lighting should be soft and flattering, highlighting the pad's design, paper texture, and quality\n- The sticker pad should appear three-dimensional and realistic, as if it's an actual physical item\n- The overall aesthetic should be clean, minimal, and luxurious" ++ designPreservation ++ "\n- The surface should complement the pad without distracting from it - consider adding subtle elements like natural light, soft shadows, or minimal office/desk props\n- The image should have a shallow depth of field, keeping the sticker pad in sharp focus while the background is slightly blurred\n- Show the paper quality - it should look premium and well-made\n- Color accuracy is important - maintain the exact colors of the sticker pad" ++ colorReinforce colorDescription ++ "\n\nStyle: Professional product photography, boutique aesthetic, luxury stationery catalog, high-end e-commerce, clean and minimal, sophisticated lighting, realistic paper texture, premium quality, workspace lifestyle photography."

/-- `PromptBuilder.buildToteBagPrompt`. -/
def buildToteBagPrompt (colorDescription designPreservation : String) : String :=
  "Create a high-quality, professional product photography image of a tote bag" ++ colorDescription ++ " displayed hanging from an elegant hook or displayed on a surface in a luxury boutique setting.\n\nRequirements:\n- The tote bag should be displayed hanging from a premium golden or wooden hook, or elegantly arranged on a beautiful surface to showcase its shape and design\n- Position the bag with a slight natural drape or fold to show both the front design and the overall structure\n- The focus should be entirely on the tote bag, which should appear as if it's made from high-quality fabric or material\n- The background should suggest an upscale boutique, modern retail, or lifestyle store environment - think soft, professional lighting, elegant textures, and a sophisticated atmosphere\n- The image should look like professional product photography that you would see in a high-end fashion or lifestyle brand catalog\n- The lighting should be soft and flattering, highlighting the bag's design, material texture, and structure\n- The tote bag should appear three-dimensional and realistic, as if it's an actual physical item\n- The overall aesthetic should be clean, minimal, and luxurious" ++ designPreservation ++ "\n- The hook or surface should be visible but not distract from the bag\n- The image should have a shallow depth of field, keeping the tote bag in sharp focus while the background is slightly blurred\n- Show the material quality - it should look premium and well-constructed\n- Color accuracy is important - maintain the exact colors of the bag" ++ colorReinforce colorDescription ++ "\n\nStyle: Professional product photography, boutique aesthetic, luxury fashion/lifestyle catalog, high-end e-commerce, clean and minimal, sophisticated lighting, realistic fabric/material texture, premium quality."

/-- `PromptBuilder.buildGenericPrompt` (the `default` switch arm; every
`ProductType` value is covered by a specific template, so with the closed
enum this fallback is never dispatched, but we embed it as written). -/
def buildGenericPrompt (productType : ProductType)
    (colorDescription designPreservation : String) : String :=
  let productName := getProductName productType
  "Create a high-quality, professional product photography image of a " ++ productName ++ colorDescription ++ " displayed in a luxury boutique setting.\n\nRequirements:\n- The " ++ productName ++ " should be displayed in an elegant and natural way that showcases the product beautifully\n- The focus should be entirely on the " ++ productName ++ ", which should appear as if it's made from high-quality materials\n- The background should suggest an upscale boutique environment - think soft, professional lighting, elegant textures, and a sophisticated atmosphere\n- The image should look like professional product photography that you would see in a high-end catalog or boutique website\n- The lighting should be soft and flattering, highlighting the product's details and texture\n- The " ++ productName ++ " should appear three-dimensional and realistic, as if it's an actual physical item\n- The overall aesthetic should be clean, minimal, and luxurious" ++ designPreservation ++ "\n- The image should have a shallow depth of field, keeping the product in sharp focus while the background is slightly blurred\n- Color accuracy is important - maintain the exact colors of the product" ++ colorReinforce colorDescription ++ "\n\nStyle: Professional product photography, boutique aesthetic, luxury catalog, high-end e-commerce, clean and minimal, sophisticated lighting, premium quality."

/-- The design-preservation clause appended when `hasDesign` is true. -/
def designClause : String :=
  " The design on the product must remain exactly as shown in the reference image - do not alter, modify, or change the design in any way. The design should be clearly visible and prominent. Remember it will be used as the sales image for the product."

/-- `PromptBuilder.buildPrompt(productType, color?, hasDesign = true)`:
compute the color clause and design clause, then dispatch on the product
type (clothing / cap / mug / sticker pad / tote bag).  JS truthiness:
`color ? ` in ... color` : ''` treats an empty color string as
absent. -/
def buildPrompt (productType : ProductType) (color : Option String)
    (hasDesign : Bool) : String :=
  let colorDescription : String :=
    match color with
    | some c => if c = "" then "" else " in " ++ c ++ " color"
    | none => ""
  let designPreservation : String := if hasDesign then designClause else ""
  match productType with
  | .HOODIE | .SHIRT | .TANK_TOP | .LONG_SLEEVE | .SWEATSHIRT | .JACKET =>
      buildClothingPrompt productType colorDescription designPreservation
  | .FACECAP => buildCapPrompt colorDescription designPreservation
  | .MUG => buildMugPrompt colorDescription designPreservation
  | .STICKER_PAD => buildStickerPadPrompt colorDescription designPreservation
  | .TOTE_BAG => buildToteBagPrompt colorDescription designPreservation

end PromptBuilder

/-! ## Image input normalization (`normalizeImageInput`, image-processor) -/

/-- JavaScript `str.split(',')` on the character list: splits at every
comma, keeping empty fields. -/
def jsSplitComma : List Char → List (List Char)
  | [] => [[]]
  | c :: rest =>
    if c = ',' then [] :: jsSplitComma rest
    else
      match jsSplitComma rest with
      | h :: t => (c :: h) :: t
      | [] => [[c]]

/-- The input type of `normalizeImageInput`: `Buffer | string`. -/
inductive ImageInput where
  | buffer (data : List Nat)
  | str (s : String)

/-- How `normalizeImageInput` can fail.  `fsError path` is the rejection
of `fs.readFile(path)` (an unreadable path); `typeError` is the
`Buffer.from(undefined, 'base64')` TypeError when a `data:` input has no
comma; `invalidInput` is the function's final
`'Invalid image input format…'` throw, reachable only for inputs that
are neither `Buffer` nor `string` — which the parameter type excludes. -/
inductive NormError where
  | typeError
  | fsError (path : String)
  | invalidInput
deriving DecidableEq, Repr

/-- `normalizeImageInput(image)` from `src/utils/image-processor.ts`,
with the file system abstracted as `fs : path → Option bytes`
(`none` = `fs.readFile` rejects).
Branches in source order: Buffer identity; `data:` URI (split on commas,
take field 1, lenient-decode); text without `/` or `\` (the
`try { Buffer.from(image, 'base64') } catch { }` — the catch is dead
because Node's decoder is total, so this branch always returns);
remaining text is a file path. -/
def normalizeImageInput (fs : String → Option (List Nat)) :
    ImageInput → Except NormError (List Nat)
  | .buffer b => .ok b
  | .str s =>
    if ("data:".data).isPrefixOf s.data then
      match (jsSplitComma s.data).get? 1 with
      | some payload => .ok (nodeB64Decode ⟨payload⟩)
      | none => .error .typeError
    else if ¬ s.data.contains '/' ∧ ¬ s.data.contains '\\' then
      .ok (nodeB64Decode s)
    else
      match fs s with
      | some b => .ok b
      | none => .error (.fsError s)

/-! ## MIME sniffing (`detectMimeType`, image-processor) -/

/-- `detectMimeType(buffer)`: check the leading bytes against four magic
numbers in source order; default `image/png`.  JavaScript out-of-range
indexing yields `undefined`, which compares unequal to every number —
modelled by `get?`. -/
def detectMimeType (buffer : List Nat) : String :=
  if buffer.get? 0 = some 0xff ∧ buffer.get? 1 = some 0xd8 then "image/jpeg"
  else if buffer.get? 0 = some 0x89 ∧ buffer.get? 1 = some 0x50 ∧
      buffer.get? 2 = some 0x4e ∧ buffer.get? 3 = some 0x47 then "image/png"
  else if buffer.get? 0 = some 0x47 ∧ buffer.get? 1 = some 0x49 ∧
      buffer.get? 2 = some 0x46 then "image/gif"
  else if buffer.get? 0 = some 0x52 ∧ buffer.get? 1 = some 0x49 ∧
      buffer.get? 2 = some 0x46 ∧ buffer.get? 3 = some 0x46 then "image/webp"
  else "image/png"

/-! ## Provider adapters (`src/providers/ai-provider.ts`)

Each adapter is embedded as a function of the request data plus a network
oracle (a record of response functions, one per endpoint the adapter
calls).  The result pairs the adapter's `Except` outcome (error = thrown
`Error` message) with the number of network requests issued, so that
"fails before any network call" is expressible. -/

/-- `OpenAIProvider`'s two endpoints: the GPT-4 Vision chat completion
(given the data-URI of the reference image, returns the design
description or a non-ok error body) and the DALL-E 3 generation (given
the enhanced prompt, returns the `b64_json` payload or a non-ok error
body). -/
structure OpenAINet where
  vision : String → Except String String
  images : String → Except String String

/-- `OpenAIProvider.generateImage`: fail fast on an empty key; call the
vision endpoint on the reference image; splice the returned design
description into the prompt; call the generation endpoint; base64-decode
its `b64_json` payload. -/
def openaiGenerateImage (prompt : String) (referenceImage : List Nat)
    (apiKey : String) (net : OpenAINet) : Except String (List Nat) × Nat :=
  if apiKey = "" then
    (.error "OpenAI API key is required. Set OPENAI_API_KEY environment variable or pass apiKey in options.", 0)
  else
    let base64Image := b64Encode referenceImage
    match net.vision ("data:image/png;base64," ++ base64Image) with
    | .error e => (.error ("OpenAI Vision API error: " ++ e), 1)
    | .ok designDescription =>
      let enhancedPrompt := prompt ++ "\n\nIMPORTANT: The product must have the following design elements exactly as described: " ++ designDescription ++ ". These design elements must be preserved exactly - do not alter, modify, or change them in any way."
      match net.images enhancedPrompt with
      | .error e => (.error ("OpenAI DALL-E API error: " ++ e), 2)
      | .ok b64 => (.ok (nodeB64Decode b64), 2)

/-- `StabilityAIProvider`'s single endpoint: the multipart
image-to-image edit (prompt and image bytes in, raw binary body out, or
the `response.text()` of a non-ok response). -/
structure StabilityNet where
  edit : String → List Nat → Except String (List Nat)

/-- `StabilityAIProvider.generateImage`: fail fast on an empty key, one
round trip, binary response returned as-is. -/
def stabilityGenerateImage (prompt : String) (referenceImage : List Nat)
    (apiKey : String) (net : StabilityNet) : Except String (List Nat) × Nat :=
  if apiKey = "" then
    (.error "Stability AI API key is required. Set STABILITY_API_KEY environment variable or pass apiKey in options.", 0)
  else
    match net.edit prompt referenceImage with
    | .error e => (.error ("Stability AI API error: " ++ e), 1)
    | .ok b => (.ok b, 1)

/-- `NanoBananaProvider`'s single endpoint: `generateContent` takes the
prompt and the base64 reference image and returns the parts of the first
candidate (`some data` = a part with `inlineData.data`, `none` = a part
without), or a non-ok error body. -/
structure NanoBananaNet where
  generateContent : String → String → Except String (List (Option String))

/-- `NanoBananaProvider.generateImage`: fail fast on an empty key, one
round trip, find the first part carrying inline image data (JS
truthiness also rejects an empty `data` string), base64-decode it. -/
def nanoBananaGenerateImage (prompt : String) (referenceImage : List Nat)
    (apiKey : String) (net : NanoBananaNet) : Except String (List Nat) × Nat :=
  if apiKey = "" then
    (.error "Google AI API key is required. Set GOOGLE_AI_API_KEY or GEMINI_API_KEY environment variable or pass apiKey in options.", 0)
  else
    match net.generateContent prompt (b64Encode referenceImage) with
    | .error e => (.error ("Google Gemini API error: " ++ e), 1)
    | .ok parts =>
      match parts.findSome? id with
      | none => (.error "Nano Banana API did not return an image", 1)
      | some data =>
        if data = "" then (.error "Nano Banana API did not return an image", 1)
        else (.ok (nodeB64Decode data), 1)

/-- Replicate prediction status values. -/
inductive RStatus where
  | starting | processing | succeeded | failed | canceled
deriving DecidableEq, Repr

/-- The prediction object returned by Replicate's create and status
endpoints (`output?: string[]`, `error?: string`). -/
structure RResult where
  id : String
  status : RStatus
  output : Option (List String) := none
  error : Option String := none
deriving DecidableEq, Repr

/-- `ReplicateProvider`'s endpoints: prediction creation (data-URI and
prompt in, initial prediction or non-ok error body out), the status poll
(the result of the `n`-th poll request), and the final image fetch by
URL. -/
structure ReplicateNet where
  create : String → String → Except String RResult
  poll : Nat → RResult
  fetchImage : String → List Nat

/-- The `while (status === 'starting' || status === 'processing')`
condition. -/
def isInProgress : RStatus → Bool
  | .starting => true
  | .processing => true
  | _ => false

/-- JS `result.error || 'Unknown error'`. -/
def orUnknownError : Option String → String
  | some s => if s = "" then "Unknown error" else s
  | none => "Unknown error"

/-- The polling loop: starting from result `r` after `i` polls, keep
re-fetching while the status is in-progress.  `fuel` bounds the number of
further polls we are willing to model; `none` means the loop is still
running after `fuel` polls (the source has no timeout, so its loop is
unbounded).  Returns the first non-in-progress result and the total
number of poll requests made. -/
def pollLoop (poll : Nat → RResult) : Nat → RResult → Nat → Option (RResult × Nat)
  | fuel, r, i =>
    if isInProgress r.status then
      match fuel with
      | 0 => none
      | f + 1 => pollLoop poll f (poll i) (i + 1)
    else some (r, i)

/-- `ReplicateProvider.generateImage`: fail fast on an empty token;
create the prediction; poll until the status leaves
{starting, processing}; a `failed` status throws the remote's error
message; then a missing or empty `output` throws the no-image error;
otherwise fetch `output[0]` and return its bytes.  The outer `Option` is
`none` when the poll loop is still running after `fuel` polls; the `Nat`
counts network requests (create + polls + final image fetch). -/
def replicateGenerateImage (prompt : String) (referenceImage : List Nat)
    (apiKey : String) (net : ReplicateNet) (fuel : Nat) :
    Option (Except String (List Nat) × Nat) :=
  if apiKey = "" then
    some (.error "Replicate API token is required. Set REPLICATE_API_TOKEN environment variable or pass apiKey in options.", 0)
  else
    let dataUri := "data:image/png;base64," ++ b64Encode referenceImage
    match net.create dataUri prompt with
    | .error e => some (.error ("Replicate API error: " ++ e), 1)
    | .ok prediction =>
      match pollLoop net.poll fuel prediction 0 with
      | none => none
      | some (result, polls) =>
        if result.status = .failed then
          some (.error ("Replicate prediction failed: " ++ orUnknownError result.error), 1 + polls)
        else
          match result.output with
          | none => some (.error "Replicate prediction did not return an image", 1 + polls)
          | some [] => some (.error "Replicate prediction did not return an image", 1 + polls)
          | some (imageUrl :: _) => some (.ok (net.fetchImage imageUrl), 1 + polls + 1)

/-! ## Provider factory (`createAIProvider`) -/

/-- The four adapter classes the factory can instantiate. -/
inductive AIProviderKind where
  | nanobanana | openai | stability | replicate
deriving DecidableEq, Repr

/-- `createAIProvider(provider)`: the closed mapping from identity string
to adapter; the `default` switch arm throws
`Unsupported provider: ...`.  (The TS parameter type is the union of the
four literals, but the runtime check covers every string.) -/
def createAIProvider (provider : String) : Except String AIProviderKind :=
  if provider = "nanobanana" then .ok .nanobanana
  else if provider = "openai" then .ok .openai
  else if provider = "stability" then .ok .stability
  else if provider = "replicate" then .ok .replicate
  else .error ("Unsupported provider: " ++ provider)

/-! ## Enhancer facade (`MerchDesignEnhancer`, src/index.ts) -/

/-- The argument of `enhanceImage`: note there is no design-preservation
field — the flag is not exposed to callers. -/
structure EnhanceImageOptions where
  image : ImageInput
  productType : ProductType
  color : Option String := none

/-- The result of `enhanceImage`. -/
structure EnhanceImageResult where
  image : List Nat
  mimeType : String
deriving DecidableEq, Repr

/-- A failure of `enhanceImage`: either the normalization error or the
generation error, each propagated unchanged. -/
inductive EnhanceError where
  | norm (e : NormError)
  | gen (msg : String)
deriving DecidableEq, Repr

/-- The facade's construction-time state: the bound credential and the
bound adapter's `generateImage` (prompt, reference image, api key). -/
structure MerchDesignEnhancer where
  apiKey : String
  generateImage : String → List Nat → String → Except String (List Nat)

/-- `MerchDesignEnhancer.enhanceImage`: normalize the input, build the
prompt with `hasDesign = true` (hard-coded at the call site), invoke the
bound adapter's `generateImage` with the construction-time key, sniff the
MIME type of the generated bytes.  Failures of either step propagate. -/
def MerchDesignEnhancer.enhanceImage (enh : MerchDesignEnhancer)
    (fs : String → Option (List Nat)) (opts : EnhanceImageOptions) :
    Except EnhanceError EnhanceImageResult :=
  match normalizeImageInput fs opts.image with
  | .error e => .error (.norm e)
  | .ok imageBuffer =>
    let prompt := PromptBuilder.buildPrompt opts.productType opts.color true
    match enh.generateImage prompt imageBuffer enh.apiKey with
    | .error e => .error (.gen e)
    | .ok enhancedImage => .ok ⟨enhancedImage, detectMimeType enhancedImage⟩

/-- A Replicate network script whose prediction is immediately reported
as `canceled`, carrying the remote error message `"user canceled"` and no
output. -/
def replicateNetCanceled : ReplicateNet :=
  ⟨fun _ _ => .ok ⟨"p1", .canceled, none, some "user canceled"⟩,
   fun _ => ⟨"p1", .canceled, none, some "user canceled"⟩,
   fun _ => []⟩

/-- A Replicate network script: creation returns a `starting` prediction,
the first poll reports `processing`, every later poll reports `succeeded`
with output `["u"]`, and fetching `"u"` yields the byte `[9]`. -/
def replicateNetPolls : ReplicateNet :=
  ⟨fun _ _ => .ok ⟨"id", .starting, none, none⟩,
   fun i => if i = 0 then ⟨"id", .processing, none, none⟩
            else ⟨"id", .succeeded, some ["u"], none⟩,
   fun _ => [9]⟩

/-- The color-clause facts asserted (per category) by the amended color
claim: with color `"navy blue"` the prompt contains `"navy blue"` exactly
once, inside the descriptive clause `" in navy blue color"`, and carries
the fixed reinforcement clause `", especially the specified color"`;
without a color the prompt contains neither the color substring nor the
reinforcement clause. -/
def NavyBlueFacts (pt : ProductType) : Prop :=
  countSubstr "navy blue" (PromptBuilder.buildPrompt pt (some "navy blue") true) = 1 ∧
  occursIn " in navy blue color" (PromptBuilder.buildPrompt pt (some "navy blue") true) ∧
  occursIn ", especially the specified color"
    (PromptBuilder.buildPrompt pt (some "navy blue") true) ∧
  countSubstr "navy blue" (PromptBuilder.buildPrompt pt none true) = 0 ∧
  ¬ occursIn ", especially the specified color" (PromptBuilder.buildPrompt pt none true)

/-! ## Theorems -/

set_option maxRecDepth 100000

/-- C8: `detectMimeType` checks the buffer's leading bytes against the four
magic-number signatures in the source's fixed order (JPEG `FF D8`,
PNG `89 50 4E 47`, GIF `47 49 46`, WEBP `52 49 46 46`), returns the MIME
type of the first (and, since the signatures' first bytes are pairwise
distinct, only) matching signature, and returns `image/png` when no
signature matches; being a total function it never fails. -/
theorem detect_mime_type_signatures :
    (∀ l : List Nat, detectMimeType (0xff :: 0xd8 :: l) = "image/jpeg") ∧
    (∀ l : List Nat, detectMimeType (0x89 :: 0x50 :: 0x4e :: 0x47 :: l) = "image/png") ∧
    (∀ l : List Nat, detectMimeType (0x47 :: 0x49 :: 0x46 :: l) = "image/gif") ∧
    (∀ l : List Nat, detectMimeType (0x52 :: 0x49 :: 0x46 :: 0x46 :: l) = "image/webp") ∧
    (∀ b : List Nat,
      ¬(b.get? 0 = some 0xff ∧ b.get? 1 = some 0xd8) →
      ¬(b.get? 0 = some 0x89 ∧ b.get? 1 = some 0x50 ∧
        b.get? 2 = some 0x4e ∧ b.get? 3 = some 0x47) →
      ¬(b.get? 0 = some 0x47 ∧ b.get? 1 = some 0x49 ∧ b.get? 2 = some 0x46) →
      ¬(b.get? 0 = some 0x52 ∧ b.get? 1 = some 0x49 ∧
        b.get? 2 = some 0x46 ∧ b.get? 3 = some 0x46) →
      detectMimeType b = "image/png") := by
  refine ⟨fun l => rfl, fun l => rfl, fun l => rfl, fun l => rfl, fun b h1 h2 h3 h4 => ?_⟩
  unfold detectMimeType
  rw [if_neg h1, if_neg h2, if_neg h3, if_neg h4]

/-- Witness for C8: the buffer `[0, 1]` matches no signature and is
reported as `image/png`. -/
theorem detect_mime_type_signatures_witness :
    ¬((([0, 1] : List Nat).get? 0 = some 0xff) ∧ (([0, 1] : List Nat).get? 1 = some 0xd8)) ∧
    detectMimeType [0, 1] = "image/png" :=
  ⟨by decide,
    detect_mime_type_signatures.2.2.2.2 [0, 1] (by decide) (by decide) (by decide) (by decide)⟩

/-- C10: `detectMimeType` is total on short buffers: any buffer of fewer
than two bytes (including the empty buffer) matches no signature and is
reported as `image/png`; reading past the end of the buffer is modelled
by `get?` returning `none` (JS `undefined`), never an error; and for
every buffer the result is one of the four image MIME types. -/
theorem detect_mime_type_short_buffers :
    (∀ b : List Nat, b.length < 2 → detectMimeType b = "image/png") ∧
    (∀ b : List Nat, detectMimeType b = "image/jpeg" ∨ detectMimeType b = "image/png" ∨
      detectMimeType b = "image/gif" ∨ detectMimeType b = "image/webp") := by
  constructor
  · intro b hlen
    match b with
    | [] => rfl
    | [x] => simp [detectMimeType]
    | x :: y :: t => simp at hlen; omega
  · intro b
    unfold detectMimeType
    split_ifs <;> simp

/-- Witness for C10: the one-byte buffer `[0x47]` (too short for the GIF
signature) is reported as `image/png`. -/
theorem detect_mime_type_short_buffers_witness :
    ([0x47] : List Nat).length < 2 ∧ detectMimeType [0x47] = "image/png" :=
  ⟨by decide, detect_mime_type_short_buffers.1 [0x47] (by decide)⟩

/-- C6: the provider factory returns the matching adapter for exactly the
four known identity strings and throws `Unsupported provider: ...` for
every other string. -/
theorem factory_closure :
    createAIProvider "nanobanana" = .ok .nanobanana ∧
    createAIProvider "openai" = .ok .openai ∧
    createAIProvider "stability" = .ok .stability ∧
    createAIProvider "replicate" = .ok .replicate ∧
    (∀ s : String, s ∉ (["nanobanana", "openai", "stability", "replicate"] : List String) →
      createAIProvider s = .error ("Unsupported provider: " ++ s)) := by
  refine ⟨rfl, rfl, rfl, rfl, fun s hs => ?_⟩
  simp only [List.mem_cons, List.not_mem_nil, or_false, not_or] at hs
  obtain ⟨h1, h2, h3, h4⟩ := hs
  unfold createAIProvider
  rw [if_neg h1, if_neg h2, if_neg h3, if_neg h4]

/-- Witness for C6: the unknown identity `"dalle"` is rejected. -/
theorem factory_closure_witness :
    ("dalle" : String) ∉ (["nanobanana", "openai", "stability", "replicate"] : List String) ∧
    createAIProvider "dalle" = .error ("Unsupported provider: " ++ "dalle") :=
  ⟨by decide, factory_closure.2.2.2.2 "dalle" (by decide)⟩

/-- C4: every one of the four adapters, called with an empty credential,
returns its `MissingCredentialError` message immediately with zero
network requests issued (the `Nat` component counts requests), for every
prompt, reference image, network oracle and fuel; and each message names
the expected environment variable. -/
theorem credential_fail_fast :
    (∀ (prompt : String) (img : List Nat) (net : OpenAINet),
      openaiGenerateImage prompt img "" net =
        (.error "OpenAI API key is required. Set OPENAI_API_KEY environment variable or pass apiKey in options.", 0)) ∧
    (∀ (prompt : String) (img : List Nat) (net : StabilityNet),
      stabilityGenerateImage prompt img "" net =
        (.error "Stability AI API key is required. Set STABILITY_API_KEY environment variable or pass apiKey in options.", 0)) ∧
    (∀ (prompt : String) (img : List Nat) (net : NanoBananaNet),
      nanoBananaGenerateImage prompt img "" net =
        (.error "Google AI API key is required. Set GOOGLE_AI_API_KEY or GEMINI_API_KEY environment variable or pass apiKey in options.", 0)) ∧
    (∀ (prompt : String) (img : List Nat) (net : ReplicateNet) (fuel : Nat),
      replicateGenerateImage prompt img "" net fuel =
        some (.error "Replicate API token is required. Set REPLICATE_API_TOKEN environment variable or pass apiKey in options.", 0)) ∧
    occursIn "OPENAI_API_KEY" "OpenAI API key is required. Set OPENAI_API_KEY environment variable or pass apiKey in options." ∧
    occursIn "STABILITY_API_KEY" "Stability AI API key is required. Set STABILITY_API_KEY environment variable or pass apiKey in options." ∧
    occursIn "GOOGLE_AI_API_KEY" "Google AI API key is required. Set GOOGLE_AI_API_KEY or GEMINI_API_KEY environment variable or pass apiKey in options." ∧
    occursIn "GEMINI_API_KEY" "Google AI API key is required. Set GOOGLE_AI_API_KEY or GEMINI_API_KEY environment variable or pass apiKey in options." ∧
    occursIn "REPLICATE_API_TOKEN" "Replicate API token is required. Set REPLICATE_API_TOKEN environment variable or pass apiKey in options." :=
  ⟨fun _ _ _ => rfl, fun _ _ _ => rfl, fun _ _ _ => rfl, fun _ _ _ _ => rfl,
    by decide, by decide, by decide, by decide, by decide⟩

/-- C2 (code bug): `normalizeImageInput`'s own comment says a failed
base64 decode of separator-free text falls through to file-path
handling, but Node's `Buffer.from(text, 'base64')` never throws: it
skips invalid characters and decodes the rest.  So the relative filename
`"photo.png"` — not valid base64 (it contains `.`) — is decoded to six
garbage bytes for every file system, and the file is never read. -/
theorem bare_text_never_read_as_file :
    (∀ fs : String → Option (List Nat),
      normalizeImageInput fs (.str "photo.png") = .ok [166, 26, 45, 162, 153, 224]) ∧
    "photo.png".data.all (fun c => (b64Val c).isSome) = false :=
  ⟨fun _ => rfl, by decide⟩

/-- C3 counterexample: the unreadable path `"/nope"` (the file system
oracle rejects every path) makes `normalizeImageInput` fail with the
propagated file-system error, not with `InvalidInputError`. -/
theorem invalid_input_error_counterexample :
    normalizeImageInput (fun _ => none) (.str "/nope") = .error (.fsError "/nope") ∧
    (Except.error (NormError.fsError "/nope") : Except NormError (List Nat)) ≠
      .error .invalidInput :=
  ⟨rfl, by simp⟩

/-- C3 (amended): an unreadable file path surfaces the file-system
read error itself; the `InvalidInputError` throw is unreachable for
every `Buffer`-or-string input, because every string falls into the
data-URI, bare-base64 or file-path branch first. -/
theorem unreadable_path_error_amended :
    ∀ fs : String → Option (List Nat),
      (∀ input : ImageInput, normalizeImageInput fs input ≠ .error .invalidInput) ∧
      (∀ s : String, ¬ (("data:".data).isPrefixOf s.data = true) →
        (s.data.contains '/' = true ∨ s.data.contains '\\' = true) →
        fs s = none →
        normalizeImageInput fs (.str s) = .error (.fsError s)) := by
  intro fs
  constructor
  · intro input
    cases input with
    | buffer b => simp [normalizeImageInput]
    | str s =>
      simp only [normalizeImageInput]
      split_ifs with h1 h2
      · cases hsp : (jsSplitComma s.data).get? 1 <;> simp [hsp]
      · simp
      · cases hfs : fs s <;> simp [hfs]
  · intro s hpre hsep hfs
    simp only [normalizeImageInput]
    rw [if_neg hpre, if_neg (by
      rintro ⟨hc1, hc2⟩
      rcases hsep with h | h
      · exact hc1 h
      · exact hc2 h), hfs]

/-- Witness for C3: instantiating the amended theorem at the unreadable
path `"/nope"` over the empty file system. -/
theorem unreadable_path_error_amended_witness :
    (¬ (("data:".data).isPrefixOf "/nope".data = true)) ∧
    ("/nope".data.contains '/' = true ∨ "/nope".data.contains '\\' = true) ∧
    ((fun _ : String => (none : Option (List Nat))) "/nope" = none) ∧
    normalizeImageInput (fun _ => none) (.str "/nope") = .error (.fsError "/nope") :=
  ⟨by decide, by decide, rfl,
    (unreadable_path_error_amended (fun _ => none)).2 "/nope" (by decide) (by decide) rfl⟩

/-- C7: `enhanceImage` is the composition of its stages: when
normalization yields bytes and the bound adapter's generation succeeds on
the prompt built from `(productType, color)` with the design flag
hard-coded to `true` (the options type exposes no such flag), the result
pairs the generated bytes with their sniffed MIME type; an error from
either stage propagates unchanged, with no retry and no fallback. -/
theorem enhance_image_composition :
    ∀ (enh : MerchDesignEnhancer) (fs : String → Option (List Nat))
      (opts : EnhanceImageOptions),
      (∀ buf img, normalizeImageInput fs opts.image = .ok buf →
        enh.generateImage (PromptBuilder.buildPrompt opts.productType opts.color true)
          buf enh.apiKey = .ok img →
        enh.enhanceImage fs opts = .ok ⟨img, detectMimeType img⟩) ∧
      (∀ e, normalizeImageInput fs opts.image = .error e →
        enh.enhanceImage fs opts = .error (.norm e)) ∧
      (∀ buf msg, normalizeImageInput fs opts.image = .ok buf →
        enh.generateImage (PromptBuilder.buildPrompt opts.productType opts.color true)
          buf enh.apiKey = .error msg →
        enh.enhanceImage fs opts = .error (.gen msg)) := by
  intro enh fs opts
  refine ⟨fun buf img hn hg => ?_, fun e hn => ?_, fun buf msg hn hg => ?_⟩
  · simp [MerchDesignEnhancer.enhanceImage, hn, hg]
  · simp [MerchDesignEnhancer.enhanceImage, hn]
  · simp [MerchDesignEnhancer.enhanceImage, hn, hg]

/-- Witness for C7: a concrete enhancer whose adapter returns `[1]`
applied to a binary input `[2]`. -/
theorem enhance_image_composition_witness :
    normalizeImageInput (fun _ => none) (.buffer [2]) = .ok [2] ∧
    (MerchDesignEnhancer.mk "k" (fun _ _ _ => .ok [1])).generateImage
      (PromptBuilder.buildPrompt ProductType.SHIRT none true) [2] "k" = .ok [1] ∧
    (MerchDesignEnhancer.mk "k" (fun _ _ _ => .ok [1])).enhanceImage (fun _ => none)
      ⟨.buffer [2], ProductType.SHIRT, none⟩ = .ok ⟨[1], "image/png"⟩ :=
  ⟨rfl, rfl,
    (enhance_image_composition (MerchDesignEnhancer.mk "k" (fun _ _ _ => .ok [1]))
      (fun _ => none) ⟨.buffer [2], ProductType.SHIRT, none⟩).1 [2] [1] rfl rfl⟩

/-- C1 counterexample: for the shirt category, the prompt built with color
`"navy blue"` contains the substring `"navy blue"` exactly once — the
descriptive clause; the color-fidelity reinforcement appended by the
templates is the fixed text `", especially the specified color"`, which
does not repeat the color, so the claimed second occurrence is absent. -/
theorem navy_blue_twice_counterexample :
    countSubstr "navy blue"
      (PromptBuilder.buildPrompt .SHIRT (some "navy blue") true) = 1 ∧
    ¬ 2 ≤ countSubstr "navy blue"
      (PromptBuilder.buildPrompt .SHIRT (some "navy blue") true) := by
  constructor <;> decide

/-- The color-clause facts, checked for the hoodie category. -/
theorem navyBlueFacts_HOODIE : NavyBlueFacts .HOODIE := by
  unfold NavyBlueFacts
  exact ⟨by decide, by decide, by decide, by decide, by decide⟩

/-- The color-clause facts, checked for the face-cap category. -/
theorem navyBlueFacts_FACECAP : NavyBlueFacts .FACECAP := by
  unfold NavyBlueFacts
  exact ⟨by decide, by decide, by decide, by decide, by decide⟩

/-- The color-clause facts, checked for the shirt category. -/
theorem navyBlueFacts_SHIRT : NavyBlueFacts .SHIRT := by
  unfold NavyBlueFacts
  exact ⟨by decide, by decide, by decide, by decide, by decide⟩

/-- The color-clause facts, checked for the mug category. -/
theorem navyBlueFacts_MUG : NavyBlueFacts .MUG := by
  unfold NavyBlueFacts
  exact ⟨by decide, by decide, by decide, by decide, by decide⟩

/-- The color-clause facts, checked for the sticker-pad category. -/
theorem navyBlueFacts_STICKER_PAD : NavyBlueFacts .STICKER_PAD := by
  unfold NavyBlueFacts
  exact ⟨by decide, by decide, by decide, by decide, by decide⟩

/-- The color-clause facts, checked for the tank-top category. -/
theorem navyBlueFacts_TANK_TOP : NavyBlueFacts .TANK_TOP := by
  unfold NavyBlueFacts
  exact ⟨by decide, by decide, by decide, by decide, by decide⟩

/-- The color-clause facts, checked for the long-sleeve category. -/
theorem navyBlueFacts_LONG_SLEEVE : NavyBlueFacts .LONG_SLEEVE := by
  unfold NavyBlueFacts
  exact ⟨by decide, by decide, by decide, by decide, by decide⟩

/-- The color-clause facts, checked for the sweatshirt category. -/
theorem navyBlueFacts_SWEATSHIRT : NavyBlueFacts .SWEATSHIRT := by
  unfold NavyBlueFacts
  exact ⟨by decide, by decide, by decide, by decide, by decide⟩

/-- The color-clause facts, checked for the jacket category. -/
theorem navyBlueFacts_JACKET : NavyBlueFacts .JACKET := by
  unfold NavyBlueFacts
  exact ⟨by decide, by decide, by decide, by decide, by decide⟩

/-- The color-clause facts, checked for the tote-bag category. -/
theorem navyBlueFacts_TOTE_BAG : NavyBlueFacts .TOTE_BAG := by
  unfold NavyBlueFacts
  exact ⟨by decide, by decide, by decide, by decide, by decide⟩

/-- C1 (amended): for every product category,
`buildPrompt(category, "navy blue", true)` contains `"navy blue"` exactly
once, inside the descriptive clause `" in navy blue color"`, and also
contains the (color-free) fidelity-reinforcement clause
`", especially the specified color"`; `buildPrompt(category, none, true)`
contains neither the color substring nor the reinforcement clause. -/
theorem navy_blue_color_clause_amended : ∀ pt : ProductType, NavyBlueFacts pt := by
  intro pt
  cases pt with
  | HOODIE => exact navyBlueFacts_HOODIE
  | FACECAP => exact navyBlueFacts_FACECAP
  | SHIRT => exact navyBlueFacts_SHIRT
  | MUG => exact navyBlueFacts_MUG
  | STICKER_PAD => exact navyBlueFacts_STICKER_PAD
  | TANK_TOP => exact navyBlueFacts_TANK_TOP
  | LONG_SLEEVE => exact navyBlueFacts_LONG_SLEEVE
  | SWEATSHIRT => exact navyBlueFacts_SWEATSHIRT
  | JACKET => exact navyBlueFacts_JACKET
  | TOTE_BAG => exact navyBlueFacts_TOTE_BAG

/-- Helper: whatever result the polling loop returns has left the
in-progress set `{starting, processing}` — the loop only stops on a
terminal status. -/
theorem pollLoop_terminal (poll : Nat → RResult) :
    ∀ (fuel : Nat) (r : RResult) (i : Nat) (result : RResult) (n : Nat),
      pollLoop poll fuel r i = some (result, n) → isInProgress result.status = false := by
  intro fuel
  induction fuel with
  | zero =>
    intro r i result n h
    rw [pollLoop] at h
    by_cases hp : isInProgress r.status = true
    · rw [if_pos hp] at h
      simp at h
    · rw [if_neg hp] at h
      have h1 : r = result := congrArg Prod.fst (Option.some.inj h)
      rw [← h1]
      simpa using hp
  | succ f ih =>
    intro r i result n h
    rw [pollLoop] at h
    by_cases hp : isInProgress r.status = true
    · rw [if_pos hp] at h
      exact ih (poll i) (i + 1) result n h
    · rw [if_neg hp] at h
      have h1 : r = result := congrArg Prod.fst (Option.some.inj h)
      rw [← h1]
      simpa using hp

/-- C5 counterexample: `canceled` is a terminal failure status (it is
outside the in-progress set and carries a remote error message), yet the
adapter fails with the generic `"Replicate prediction did not return an
image"` message — the `=== 'failed'` check lets `canceled` fall through
to the output check — so "on every terminal failure status it fails with
the remote's error message" is false. -/
theorem replicate_canceled_counterexample :
    replicateGenerateImage "p" [] "tok" replicateNetCanceled 5 =
      some (.error "Replicate prediction did not return an image", 1) ∧
    isInProgress RStatus.canceled = false ∧
    orUnknownError (some "user canceled") = "user canceled" ∧
    ("Replicate prediction did not return an image" : String) ≠
      "Replicate prediction failed: user canceled" :=
  ⟨rfl, rfl, rfl, by decide⟩

/-- C5 (amended): with a non-empty token and a created prediction, the
adapter polls until the status leaves `{starting, processing}`; if the
terminal status is `failed` it fails with the remote's error message; on
any other terminal status (including `canceled`) it fetches the first
output URL and returns those bytes when the output is non-empty, and
otherwise fails with the generic no-image message rather than the
remote's error. -/
theorem replicate_polling_amended :
    ∀ (prompt : String) (img : List Nat) (apiKey : String) (net : ReplicateNet)
      (fuel : Nat) (pred result : RResult) (n : Nat),
      apiKey ≠ "" →
      net.create ("data:image/png;base64," ++ b64Encode img) prompt = .ok pred →
      pollLoop net.poll fuel pred 0 = some (result, n) →
      isInProgress result.status = false ∧
      (result.status = .failed →
        replicateGenerateImage prompt img apiKey net fuel =
          some (.error ("Replicate prediction failed: " ++ orUnknownError result.error),
            1 + n)) ∧
      (∀ url rest, result.status ≠ .failed → result.output = some (url :: rest) →
        replicateGenerateImage prompt img apiKey net fuel =
          some (.ok (net.fetchImage url), 1 + n + 1)) ∧
      (result.status ≠ .failed → (result.output = none ∨ result.output = some []) →
        replicateGenerateImage prompt img apiKey net fuel =
          some (.error "Replicate prediction did not return an image", 1 + n)) := by
  intro prompt img apiKey net fuel pred result n hkey hcreate hpoll
  refine ⟨pollLoop_terminal net.poll fuel pred 0 result n hpoll, ?_, ?_, ?_⟩
  · intro hfail
    simp only [replicateGenerateImage]
    rw [if_neg hkey]
    simp only [hcreate, hpoll]
    simp [hfail]
  · intro url rest hnf hout
    simp only [replicateGenerateImage]
    rw [if_neg hkey]
    simp only [hcreate, hpoll]
    simp [hnf, hout]
  · intro hnf hout
    simp only [replicateGenerateImage]
    rw [if_neg hkey]
    simp only [hcreate, hpoll]
    rcases hout with hout | hout <;> simp [hnf, hout]

/-- Witness for C5: on the scripted network the loop polls twice
(starting → processing → succeeded) and the adapter returns the fetched
bytes after 4 requests (create + 2 polls + image fetch). -/
theorem replicate_polling_amended_witness :
    ("tok" : String) ≠ "" ∧
    replicateNetPolls.create ("data:image/png;base64," ++ b64Encode []) "p" =
      .ok ⟨"id", .starting, none, none⟩ ∧
    pollLoop replicateNetPolls.poll 5 ⟨"id", .starting, none, none⟩ 0 =
      some (⟨"id", .succeeded, some ["u"], none⟩, 2) ∧
    replicateGenerateImage "p" [] "tok" replicateNetPolls 5 = some (.ok [9], 1 + 2 + 1) :=
  ⟨by decide, rfl, rfl,
    (replicate_polling_amended "p" [] "tok" replicateNetPolls 5
      ⟨"id", .starting, none, none⟩ ⟨"id", .succeeded, some ["u"], none⟩ 2
      (by decide) rfl rfl).2.2.1 "u" [] (by decide) rfl⟩

/-! ### Base64 round-trip machinery (for C9) -/

/-- Decoding an alphabet character recovers its 6-bit value. -/
theorem b64Val_b64Char : ∀ v < 64, b64Val (b64Char v) = some v := by decide

/-- Alphabet characters are never a comma, a colon or a backslash (the
characters the normalizer's data-URI split and separator tests look
for). -/
theorem b64Char_ne_special : ∀ v < 64, b64Char v ≠ ',' ∧ b64Char v ≠ ':' ∧ b64Char v ≠ '\\' := by
  decide

/-- Every character of a base64 encoding of bytes is `=` or an alphabet
character. -/
theorem encodeChars_chars :
    ∀ l : List Nat, (∀ x ∈ l, x < 256) →
      ∀ c ∈ encodeChars l, c = '=' ∨ ∃ v, v < 64 ∧ c = b64Char v := by
  intro l
  induction l using encodeChars.induct with
  | case1 b0 b1 b2 rest ih =>
    intro h c hc
    have h0 : b0 < 256 := h b0 (by simp)
    have h1 : b1 < 256 := h b1 (by simp)
    have h2 : b2 < 256 := h b2 (by simp)
    simp only [encodeChars, List.mem_cons] at hc
    rcases hc with rfl | rfl | rfl | rfl | hc
    · exact Or.inr ⟨b0 / 4, by omega, rfl⟩
    · exact Or.inr ⟨(b0 % 4) * 16 + b1 / 16, by omega, rfl⟩
    · exact Or.inr ⟨(b1 % 16) * 4 + b2 / 64, by omega, rfl⟩
    · exact Or.inr ⟨b2 % 64, by omega, rfl⟩
    · exact ih (fun x hx => h x (by simp [hx])) c hc
  | case2 b0 b1 =>
    intro h c hc
    have h0 : b0 < 256 := h b0 (by simp)
    have h1 : b1 < 256 := h b1 (by simp)
    simp only [encodeChars, List.mem_cons, List.not_mem_nil, or_false] at hc
    rcases hc with rfl | rfl | rfl | rfl
    · exact Or.inr ⟨b0 / 4, by omega, rfl⟩
    · exact Or.inr ⟨(b0 % 4) * 16 + b1 / 16, by omega, rfl⟩
    · exact Or.inr ⟨(b1 % 16) * 4, by omega, rfl⟩
    · exact Or.inl rfl
  | case3 b0 =>
    intro h c hc
    have h0 : b0 < 256 := h b0 (by simp)
    simp only [encodeChars, List.mem_cons, List.not_mem_nil, or_false] at hc
    rcases hc with rfl | rfl | rfl | rfl
    · exact Or.inr ⟨b0 / 4, by omega, rfl⟩
    · exact Or.inr ⟨(b0 % 4) * 16, by omega, rfl⟩
    · exact Or.inl rfl
    · exact Or.inl rfl
  | case4 =>
    intro h c hc
    simp [encodeChars] at hc

/-- Node's lenient decoder inverts the base64 encoding of any byte
list. -/
theorem decode_encode :
    ∀ l : List Nat, (∀ x ∈ l, x < 256) →
      decodeVals ((encodeChars l).filterMap b64Val) = l := by
  intro l
  induction l using encodeChars.induct with
  | case1 b0 b1 b2 rest ih =>
    intro h
    have h0 : b0 < 256 := h b0 (by simp)
    have h1 : b1 < 256 := h b1 (by simp)
    have h2 : b2 < 256 := h b2 (by simp)
    simp only [encodeChars, List.filterMap_cons,
      b64Val_b64Char _ (show b0 / 4 < 64 by omega),
      b64Val_b64Char _ (show (b0 % 4) * 16 + b1 / 16 < 64 by omega),
      b64Val_b64Char _ (show (b1 % 16) * 4 + b2 / 64 < 64 by omega),
      b64Val_b64Char _ (show b2 % 64 < 64 by omega)]
    rw [decodeVals, ih (fun x hx => h x (by simp [hx]))]
    simp only [List.cons.injEq]
    exact ⟨by omega, by omega, by omega, trivial⟩
  | case2 b0 b1 =>
    intro h
    have h0 : b0 < 256 := h b0 (by simp)
    have h1 : b1 < 256 := h b1 (by simp)
    simp only [encodeChars, List.filterMap_cons,
      b64Val_b64Char _ (show b0 / 4 < 64 by omega),
      b64Val_b64Char _ (show (b0 % 4) * 16 + b1 / 16 < 64 by omega),
      b64Val_b64Char _ (show (b1 % 16) * 4 < 64 by omega),
      show b64Val '=' = none from rfl, List.filterMap_nil]
    rw [decodeVals]
    simp only [List.cons.injEq]
    exact ⟨by omega, by omega, trivial⟩
  | case3 b0 =>
    intro h
    have h0 : b0 < 256 := h b0 (by simp)
    simp only [encodeChars, List.filterMap_cons,
      b64Val_b64Char _ (show b0 / 4 < 64 by omega),
      b64Val_b64Char _ (show (b0 % 4) * 16 < 64 by omega),
      show b64Val '=' = none from rfl, List.filterMap_nil]
    rw [decodeVals]
    simp only [List.cons.injEq]
    exact ⟨by omega, trivial⟩
  | case4 =>
    intro h
    rfl

/-- JS `split(',')` on a comma-free list yields the whole list. -/
theorem jsSplitComma_no_comma : ∀ l : List Char, ',' ∉ l → jsSplitComma l = [l] := by
  intro l
  induction l with
  | nil => intro h; rfl
  | cons c rest ih =>
    intro h
    have hc : ¬ c = ',' := fun hcc => h (by simp [hcc])
    rw [jsSplitComma, if_neg hc, ih (fun hm => h (List.mem_cons_of_mem _ hm))]

/-- JS `split(',')` of `pre ++ "," ++ tail`, with both sides comma-free,
yields exactly the two fields. -/
theorem jsSplitComma_append : ∀ pre tail : List Char, ',' ∉ pre → ',' ∉ tail →
    jsSplitComma (pre ++ ',' :: tail) = [pre, tail] := by
  intro pre
  induction pre with
  | nil =>
    intro tail _ ht
    rw [List.nil_append, jsSplitComma, if_pos rfl, jsSplitComma_no_comma tail ht]
  | cons c p ih =>
    intro tail hp ht
    have hc : ¬ c = ',' := fun hcc => hp (by simp [hcc])
    rw [List.cons_append, jsSplitComma, if_neg hc,
      ih tail (fun hm => hp (List.mem_cons_of_mem _ hm)) ht]

/-- C9: normalization round-trips — a binary input is returned
identically; a data-URI whose base64 payload encodes bytes `b` (each a
byte value) normalizes back to `b`; and the plain base64 encoding of `b`
normalizes back to `b` provided the encoding contains no `/` (the one
base64 alphabet character the separator test mistakes for a path
separator). -/
theorem normalize_round_trip :
    ∀ (fs : String → Option (List Nat)) (b : List Nat),
      (∀ x ∈ b, x < 256) →
      normalizeImageInput fs (.buffer b) = .ok b ∧
      normalizeImageInput fs (.str ("data:image/png;base64," ++ b64Encode b)) = .ok b ∧
      ('/' ∉ encodeChars b → normalizeImageInput fs (.str (b64Encode b)) = .ok b) := by
  intro fs b hb
  have hchars := encodeChars_chars b hb
  have hmem : ∀ ch : Char, ch ≠ '=' → (∀ v < 64, b64Char v ≠ ch) → ch ∉ encodeChars b := by
    intro ch hne hab hm
    rcases hchars ch hm with h | ⟨v, hv, h⟩
    · exact hne h
    · exact hab v hv h.symm
  have hnc : (',' : Char) ∉ encodeChars b :=
    hmem ',' (by decide) (fun v hv => (b64Char_ne_special v hv).1)
  have hncol : (':' : Char) ∉ encodeChars b :=
    hmem ':' (by decide) (fun v hv => (b64Char_ne_special v hv).2.1)
  have hnbs : ('\\' : Char) ∉ encodeChars b :=
    hmem '\\' (by decide) (fun v hv => (b64Char_ne_special v hv).2.2)
  refine ⟨rfl, ?_, ?_⟩
  · simp only [normalizeImageInput]
    rw [if_pos (show ("data:".data).isPrefixOf
        ("data:image/png;base64," ++ b64Encode b).data = true from rfl)]
    have hdata : ("data:image/png;base64," ++ b64Encode b).data =
        "data:image/png;base64".data ++ ',' :: encodeChars b := rfl
    rw [hdata, jsSplitComma_append _ _ (by decide) hnc]
    show Except.ok (nodeB64Decode ⟨encodeChars b⟩) = .ok b
    rw [show nodeB64Decode ⟨encodeChars b⟩ =
        decodeVals ((encodeChars b).filterMap b64Val) from rfl, decode_encode b hb]
  · intro hslash
    simp only [normalizeImageInput]
    have hpre : ¬ (("data:".data).isPrefixOf (b64Encode b).data = true) := by
      intro hp
      obtain ⟨t, ht⟩ := List.isPrefixOf_iff_prefix.mp hp
      have hcol : (':' : Char) ∈ encodeChars b := by
        have : (':' : Char) ∈ "data:".data ++ t := by simp
        rw [show (b64Encode b).data = encodeChars b from rfl] at ht
        rw [← ht]
        exact this
      exact hncol hcol
    rw [if_neg hpre]
    have hcont : ∀ ch : Char, ch ∉ encodeChars b → ¬ ((b64Encode b).data.contains ch = true) := by
      intro ch hch hcon
      have helem : List.elem ch (encodeChars b) = true := hcon
      exact hch (List.elem_iff.mp helem)
    rw [if_pos ⟨hcont '/' hslash, hcont '\\' hnbs⟩]
    rw [show nodeB64Decode (b64Encode b) =
        decodeVals ((encodeChars b).filterMap b64Val) from rfl, decode_encode b hb]

/-- Witness for C9: the byte list `[1, 2, 3]` (encoding `"AQID"`, which
contains no path separator) round-trips through all three input forms
over the empty file system. -/
theorem normalize_round_trip_witness :
    (∀ x ∈ ([1, 2, 3] : List Nat), x < 256) ∧
    ('/' : Char) ∉ encodeChars [1, 2, 3] ∧
    normalizeImageInput (fun _ => none) (.buffer [1, 2, 3]) = .ok [1, 2, 3] ∧
    normalizeImageInput (fun _ => none)
      (.str ("data:image/png;base64," ++ b64Encode [1, 2, 3])) = .ok [1, 2, 3] ∧
    normalizeImageInput (fun _ => none) (.str (b64Encode [1, 2, 3])) = .ok [1, 2, 3] := by
  have h := normalize_round_trip (fun _ => none) [1, 2, 3] (by decide)
  exact ⟨by decide, by decide, h.1, h.2.1, h.2.2 (by decide)⟩

end Merch
